import Mathlib

/-!
Verification of the quickbooks-mcp-oauth repository's specification
against a shallow embedding of its source.

The embedding models, faithfully to the TypeScript source:
* `QuickBooksService.makeRequest` / `refreshAccessToken`
  (src/api/QuickBooksService.ts),
* `MicrosoftService.makeRequest` / `refreshAccessToken`
  (src/unnamed/part_000),
* the `form` helper and the token-exchange error path
  (src/api/lib/quickbooks-auth.ts),
* the `POST /token` error-passthrough branch (src/api/index.ts),
* `CalendarEventSchema` validation (src/api/lib/microsoft-types.ts),
* the calendar-event pagination loop and event-payload builders
  (src/unnamed/part_000),
* the bearer-token middlewares (src/api/lib/quickbooks-auth.ts,
  src/unnamed/part_002),
* the QuickBooks query construction (src/api/QuickBooksService.ts).

HTTP exchanges are embedded by passing the observed responses as
explicit inputs; JavaScript `undefined` becomes `Option.none`, string
truthiness becomes an explicit emptiness test, and thrown `Error`s
become `Except.error` / explicit error outcomes.
-/

/-- An upstream HTTP response as observed by a request executor: status
code, status text, and the JSON-decoded body (abstracted as a string). -/
structure HttpResponse where
  status : Nat
  statusText : String
  body : String
deriving DecidableEq

/-- `res.ok` of the Fetch API: status in the range 200–299. -/
def HttpResponse.ok (r : HttpResponse) : Bool :=
  decide (200 ≤ r.status) && decide (r.status ≤ 299)

/-- A vendor token-endpoint response as consumed by the two
`refreshAccessToken` methods: HTTP status, the `access_token` and
optional `refresh_token` fields of the JSON body, and the raw body
text used in the thrown error message. -/
structure TokenEndpointResponse where
  status : Nat
  access_token : String
  refresh_token : Option String
  rawText : String
deriving DecidableEq

/-- `res.ok` for a token-endpoint response. -/
def TokenEndpointResponse.ok (r : TokenEndpointResponse) : Bool :=
  decide (200 ≤ r.status) && decide (r.status ≤ 299)

/-- The QuickBooks environment bindings read by `QuickBooksService`. -/
structure QBEnv where
  QUICKBOOKS_ACCOUNT_ID : String
  QUICKBOOKS_CLIENT_ID : String
  QUICKBOOKS_CLIENT_SECRET : String
deriving DecidableEq

/-- The instance fields of `QuickBooksService`
(src/api/QuickBooksService.ts lines 93–104): `env`, `accessToken`,
`refreshToken`, `baseUrl`. -/
structure QBState where
  env : QBEnv
  accessToken : String
  refreshToken : String
  baseUrl : String
deriving DecidableEq

/-- `QuickBooksService.refreshAccessToken`
(src/api/QuickBooksService.ts lines 132–167): on a non-ok token
response it throws `Failed to refresh access token: <text>`; otherwise
it overwrites `accessToken` with `access_token` and overwrites
`refreshToken` only when the response's `refresh_token` is truthy
(present and non-empty), leaving every other field unchanged. -/
def qbRefreshAccessToken (st : QBState) (r : TokenEndpointResponse) :
    Except String QBState :=
  if !r.ok then
    .error ("Failed to refresh access token: " ++ r.rawText)
  else
    .ok { st with
          accessToken := r.access_token,
          refreshToken :=
            match r.refresh_token with
            | some rt => if rt = "" then st.refreshToken else rt
            | none => st.refreshToken }

/-- The Microsoft environment bindings read by `MicrosoftService`. -/
structure MSEnv where
  MICROSOFT_CLIENT_ID : String
  MICROSOFT_CLIENT_SECRET : String
  MICROSOFT_TENANT_ID : String
deriving DecidableEq

/-- The instance fields of `MicrosoftService`
(src/unnamed/part_000 lines 453–465): `env`, `accessToken`,
`refreshToken`, `baseUrl`, `userId`. -/
structure MSState where
  env : MSEnv
  accessToken : String
  refreshToken : String
  baseUrl : String
  userId : String
deriving DecidableEq

/-- `MicrosoftService.refreshAccessToken`
(src/unnamed/part_000 lines 550–581): same shape as the QuickBooks
variant, including the truthiness test
`if (refresh_token) this.refreshToken = refresh_token`. -/
def msRefreshAccessToken (st : MSState) (r : TokenEndpointResponse) :
    Except String MSState :=
  if !r.ok then
    .error ("Failed to refresh access token: " ++ r.rawText)
  else
    .ok { st with
          accessToken := r.access_token,
          refreshToken :=
            match r.refresh_token with
            | some rt => if rt = "" then st.refreshToken else rt
            | none => st.refreshToken }

/-- Outcome of one `makeRequest` call: a parsed JSON body, a thrown
`Error`, or `diverge`.  The QuickBooks source recurses on every 401
with no counter, so its embedding is fuel-indexed and `diverge` marks
fuel exhaustion, i.e. the source would still be retrying. -/
inductive ReqOutcome where
  | ok (body : String)
  | error (msg : String)
  | diverge
deriving DecidableEq

/-- `QuickBooksService.makeRequest` (src/api/QuickBooksService.ts lines
106–130).  `apiResps i` is the response of the i-th `fetch` of the API
URL, `tokResps j` the response of the j-th token-endpoint call; the
result carries the outcome, the list of bearer tokens attached to the
successive API fetches, and the number of refresh calls performed.
The source handles a 401 by refreshing and then recursing on itself
unconditionally, so the embedding spends one unit of fuel per attempt. -/
def qbMakeRequest (apiResps : Nat → HttpResponse)
    (tokResps : Nat → TokenEndpointResponse) :
    Nat → Nat → Nat → QBState → ReqOutcome × List String × Nat
  | 0, _, _, _ => (ReqOutcome.diverge, [], 0)
  | fuel + 1, i, j, st =>
    let r := apiResps i
    if r.status = 401 then
      match qbRefreshAccessToken st (tokResps j) with
      | .error m => (ReqOutcome.error m, [st.accessToken], 1)
      | .ok st' =>
        let rest := qbMakeRequest apiResps tokResps fuel (i + 1) (j + 1) st'
        (rest.1, st.accessToken :: rest.2.1, rest.2.2 + 1)
    else if !r.ok then
      (ReqOutcome.error
          ("QuickBooks API error: " ++ toString r.status ++ " " ++ r.statusText),
        [st.accessToken], 0)
    else
      (ReqOutcome.ok r.body, [st.accessToken], 0)

/-- `MicrosoftService.makeRequest` (src/unnamed/part_000 lines 467–508).
`r0` is the response to the first fetch, `r1` the response to the
retried fetch (issued only after a 401 and a successful refresh).  On a
401 the source refreshes once and returns `res.json()` of the retried
response without inspecting its status, so the retry's body is returned
as a success whatever `r1.status` is.  The result carries the outcome,
the bearer tokens attached to the fetches, and the refresh count. -/
def msMakeRequest (r0 r1 : HttpResponse) (tok : TokenEndpointResponse)
    (st : MSState) : ReqOutcome × List String × Nat :=
  if r0.status = 401 then
    match msRefreshAccessToken st tok with
    | .error m => (ReqOutcome.error m, [st.accessToken], 1)
    | .ok st' => (ReqOutcome.ok r1.body, [st.accessToken, st'.accessToken], 1)
  else if !r0.ok then
    (ReqOutcome.error
        ("Microsoft API error: " ++ toString r0.status ++ " " ++ r0.statusText),
      [st.accessToken], 0)
  else
    (ReqOutcome.ok r0.body, [st.accessToken], 0)

/-- A response stream in which every API fetch yields a 401. -/
def all401Resps : Nat → HttpResponse := fun _ => ⟨401, "Unauthorized", "{}"⟩

/-- A token-endpoint stream in which every refresh call succeeds,
returning a fresh access token and a rotated refresh token. -/
def tokAlwaysOk : Nat → TokenEndpointResponse :=
  fun j => ⟨200, "access-" ++ toString j, some ("refresh-" ++ toString j), "{}"⟩

/-- A sample initial `QuickBooksService` state. -/
def qbSt0 : QBState :=
  ⟨⟨"acct", "qb-client", "qb-secret"⟩, "qb-access-0", "qb-refresh-0",
    "https://quickbooks.api.intuit.com/v3/company/acct"⟩

/-- A sample initial `MicrosoftService` state. -/
def msSt0 : MSState :=
  ⟨⟨"ms-client", "ms-secret", "tenant"⟩, "ms-access-0", "ms-refresh-0",
    "https://graph.microsoft.com/v1.0", "user-1"⟩

theorem qbMakeRequest_all401_aux (fuel : Nat) : ∀ i j st,
    (qbMakeRequest all401Resps tokAlwaysOk fuel i j st).1 = ReqOutcome.diverge ∧
    (qbMakeRequest all401Resps tokAlwaysOk fuel i j st).2.1.length = fuel ∧
    (qbMakeRequest all401Resps tokAlwaysOk fuel i j st).2.2 = fuel := by
  induction fuel with
  | zero => intro i j st; simp [qbMakeRequest]
  | succ n ih =>
    intro i j st
    have h := ih (i + 1) (j + 1)
      { st with accessToken := (tokAlwaysOk j).access_token,
                refreshToken := "refresh-" ++ toString j }
    simp only [qbMakeRequest, all401Resps, tokAlwaysOk, qbRefreshAccessToken,
      TokenEndpointResponse.ok] at h ⊢
    simp_all

/-- C1: the spec requires that a 401 trigger exactly one refresh and one
retry, a second 401 being terminal with no third attempt and no
unbounded recursion.  The code violates this: under persistent 401s
with successful refreshes, `QuickBooksService.makeRequest` keeps
refreshing and recursing — for every fuel bound it has made exactly
that many fetch attempts and that many refresh calls without reaching a
terminal outcome — and `MicrosoftService.makeRequest` does stop after
the single retry, but returns the retried 401 response's parsed body as
a success rather than failing terminally. -/
theorem c1_retry_not_bounded :
    (∀ fuel,
      (qbMakeRequest all401Resps tokAlwaysOk fuel 0 0 qbSt0).1 = ReqOutcome.diverge ∧
      (qbMakeRequest all401Resps tokAlwaysOk fuel 0 0 qbSt0).2.1.length = fuel ∧
      (qbMakeRequest all401Resps tokAlwaysOk fuel 0 0 qbSt0).2.2 = fuel) ∧
    msMakeRequest ⟨401, "Unauthorized", "{}"⟩ ⟨401, "Unauthorized", "err-body"⟩
        (tokAlwaysOk 0) msSt0 =
      (ReqOutcome.ok "err-body", ["ms-access-0", "access-0"], 1) := by
  constructor
  · intro fuel
    exact qbMakeRequest_all401_aux fuel 0 0 qbSt0
  · rfl

/-- C2: a non-2xx, non-401 response triggers no refresh and fails
immediately with an error carrying the original status and status
text, in both `QuickBooksService.makeRequest` and
`MicrosoftService.makeRequest`: exactly one fetch is issued and the
refresh count is zero. -/
theorem c2_non401_terminal (apiResps : Nat → HttpResponse)
    (tokResps : Nat → TokenEndpointResponse) (fuel i j : Nat) (qst : QBState)
    (r0 r1 : HttpResponse) (tok : TokenEndpointResponse) (mst : MSState)
    (hq401 : (apiResps i).status ≠ 401) (hqok : (apiResps i).ok = false)
    (hm401 : r0.status ≠ 401) (hmok : r0.ok = false) :
    qbMakeRequest apiResps tokResps (fuel + 1) i j qst =
      (ReqOutcome.error ("QuickBooks API error: " ++ toString (apiResps i).status
          ++ " " ++ (apiResps i).statusText), [qst.accessToken], 0) ∧
    msMakeRequest r0 r1 tok mst =
      (ReqOutcome.error ("Microsoft API error: " ++ toString r0.status
          ++ " " ++ r0.statusText), [mst.accessToken], 0) := by
  constructor
  · simp [qbMakeRequest, hq401, hqok]
  · simp [msMakeRequest, hm401, hmok]

/-- Witness for C2 at a concrete 500 response. -/
theorem c2_witness :
    qbMakeRequest (fun _ => ⟨500, "Internal Server Error", "{}"⟩) tokAlwaysOk 1 0 0 qbSt0 =
      (ReqOutcome.error "QuickBooks API error: 500 Internal Server Error",
        ["qb-access-0"], 0) ∧
    msMakeRequest ⟨500, "Internal Server Error", "{}"⟩ ⟨200, "OK", "{}"⟩
        (tokAlwaysOk 0) msSt0 =
      (ReqOutcome.error "Microsoft API error: 500 Internal Server Error",
        ["ms-access-0"], 0) :=
  c2_non401_terminal (fun _ => ⟨500, "Internal Server Error", "{}"⟩) tokAlwaysOk 0 0 0
    qbSt0 ⟨500, "Internal Server Error", "{}"⟩ ⟨200, "OK", "{}"⟩ (tokAlwaysOk 0) msSt0
    (by decide) (by decide) (by decide) (by decide)

/-- C3 counterexample: the vendor's refresh response contains a
`refresh_token` field (the empty string), yet the held refresh token is
not replaced — both services keep `"qb-refresh-0"` / `"ms-refresh-0"`
because the source guards the assignment with JavaScript truthiness
(`if (refresh_token)`), which an empty string fails.  The claim's
"replaced if and only if the vendor's response contains a
refresh_token" is therefore false at this input. -/
theorem c3_counterexample :
    (qbRefreshAccessToken qbSt0 ⟨200, "qb-access-1", some "", "{}"⟩).map
        QBState.refreshToken = Except.ok "qb-refresh-0" ∧
    (msRefreshAccessToken msSt0 ⟨200, "ms-access-1", some "", "{}"⟩).map
        MSState.refreshToken = Except.ok "ms-refresh-0" ∧
    ("qb-refresh-0" : String) ≠ "" := by
  refine ⟨rfl, rfl, by decide⟩

/-- C3 (amended): on every successful refresh, in both
`QuickBooksService.refreshAccessToken` and
`MicrosoftService.refreshAccessToken`, the held access token is
replaced by the vendor's `access_token`; the held refresh token is
replaced exactly when the vendor's response contains a non-empty
`refresh_token` (a missing or empty `refresh_token` leaves it
unchanged); and no other field of the service state changes. -/
theorem c3_refresh_effect (qst qst' : QBState) (mst mst' : MSState)
    (r s : TokenEndpointResponse)
    (hq : qbRefreshAccessToken qst r = .ok qst')
    (hm : msRefreshAccessToken mst s = .ok mst') :
    qst'.accessToken = r.access_token ∧
    (∀ rt, r.refresh_token = some rt → rt ≠ "" → qst'.refreshToken = rt) ∧
    ((r.refresh_token = none ∨ r.refresh_token = some "") →
      qst'.refreshToken = qst.refreshToken) ∧
    qst'.env = qst.env ∧ qst'.baseUrl = qst.baseUrl ∧
    mst'.accessToken = s.access_token ∧
    (∀ rt, s.refresh_token = some rt → rt ≠ "" → mst'.refreshToken = rt) ∧
    ((s.refresh_token = none ∨ s.refresh_token = some "") →
      mst'.refreshToken = mst.refreshToken) ∧
    mst'.env = mst.env ∧ mst'.baseUrl = mst.baseUrl ∧
    mst'.userId = mst.userId := by
  unfold qbRefreshAccessToken at hq
  unfold msRefreshAccessToken at hm
  by_cases hro : r.ok
  · by_cases hso : s.ok
    · simp [hro, hso] at hq hm
      subst hq; subst hm
      refine ⟨rfl, ?_, ?_, rfl, rfl, rfl, ?_, ?_, rfl, rfl, rfl⟩
      · intro rt hrt hne; simp [hrt, hne]
      · rintro (h | h) <;> simp [h]
      · intro rt hrt hne; simp [hrt, hne]
      · rintro (h | h) <;> simp [h]
    · simp [hso] at hm
  · simp [hro] at hq

/-- Witness for C3 at a concrete rotating refresh. -/
theorem c3_witness :
    (qbSt0.accessToken = "qb-access-0") ∧
    ({ qbSt0 with accessToken := "qb-access-1", refreshToken := "qb-refresh-1" }.refreshToken
      = "qb-refresh-1") := by
  have h := c3_refresh_effect qbSt0
      { qbSt0 with accessToken := "qb-access-1", refreshToken := "qb-refresh-1" }
      msSt0 { msSt0 with accessToken := "ms-access-1" }
      ⟨200, "qb-access-1", some "qb-refresh-1", "{}"⟩
      ⟨200, "ms-access-1", none, "{}"⟩ rfl rfl
  exact ⟨rfl, h.2.1 "qb-refresh-1" rfl (by decide)⟩

/-- JSON values, as produced by `res.json()` and consumed by the token
handler and the calendar-event validator. -/
inductive Json where
  | null
  | bool (b : Bool)
  | num (n : Int)
  | str (s : String)
  | arr (elems : List Json)
  | obj (fields : List (String × Json))

/-- JavaScript `hay.includes(needle)` on strings: substring test. -/
def strIncludes (hay needle : String) : Bool :=
  hay.toList.tails.any (fun t => needle.toList.isPrefixOf t)

/-- A vendor token-endpoint response as consumed by the error paths of
`exchangeCodeForToken` / `refreshAccessToken`
(src/api/lib/quickbooks-auth.ts): HTTP status, the `content-type`
header, the result of `res.json()` (`none` when the body is not
parseable JSON), and the result of `res.text()`. -/
structure VendorResp where
  status : Nat
  contentType : Option String
  jsonBody : Option Json
  textBody : String

/-- `res.ok` for a vendor response. -/
def VendorResp.ok (r : VendorResp) : Bool :=
  decide (200 ≤ r.status) && decide (r.status ≤ 299)

/-- The `errorBody` computed on a non-ok vendor response
(src/api/lib/quickbooks-auth.ts lines 92–101 and 136–145): the parsed
JSON when the `content-type` header includes `application/json`
(falling back to `{error:"server_error"}` if parsing throws), and a
raw-text-wrapped `{error:"server_error", error_description:<text>}`
object otherwise. -/
def vendorErrorBody (r : VendorResp) : Json :=
  if strIncludes (r.contentType.getD "") "application/json" then
    match r.jsonBody with
    | some j => j
    | none => Json.obj [("error", Json.str "server_error")]
  else
    Json.obj [("error", Json.str "server_error"),
              ("error_description", Json.str r.textBody)]

/-- The `OAuthHttpError` class (src/api/lib/quickbooks-auth.ts lines
36–45): message, HTTP status, and error body. -/
structure OAuthHttpError where
  message : String
  status : Nat
  body : Json

/-- The throw at the end of `exchangeCodeForToken`
(src/api/lib/quickbooks-auth.ts lines 92–107): `none` when the vendor
response is ok; otherwise an `OAuthHttpError` with status
`res.status || 400` and the computed error body. -/
def exchangeCodeForTokenError (r : VendorResp) : Option OAuthHttpError :=
  if r.ok then none
  else some ⟨"Token exchange failed",
             if r.status = 0 then 400 else r.status,
             vendorErrorBody r⟩

/-- The throw at the end of the proxy's `refreshAccessToken`
(src/api/lib/quickbooks-auth.ts lines 136–147): same construction with
the message `Refresh failed`. -/
def refreshAccessTokenError (r : VendorResp) : Option OAuthHttpError :=
  if r.ok then none
  else some ⟨"Refresh failed",
             if r.status = 0 then 400 else r.status,
             vendorErrorBody r⟩

/-- The status allow-list of the `POST /token` catch branch
(src/api/index.ts lines 151–153). -/
def allowedStatuses : List Nat :=
  [400, 401, 403, 404, 405, 409, 410, 415, 422, 429, 500, 502, 503, 504]

/-- The `OAuthHttpError` catch branch of the `POST /token` handler
(src/api/index.ts lines 143–175): the response status is
`e.status || 400` when that lies in the allow-list and 400 otherwise,
and the response body is `e.body ?? {error:"invalid_request"}` (the
nullish coalescing fires exactly when the carried body is JSON null). -/
def tokenErrorResponse (e : OAuthHttpError) : Nat × Json :=
  let statusCandidate := if e.status = 0 then 400 else e.status
  let status := if allowedStatuses.contains statusCandidate then statusCandidate else 400
  let body :=
    match e.body with
    | Json.null => Json.obj [("error", Json.str "invalid_request")]
    | b => b
  (status, body)

/-- C4 counterexample: the vendor fails the exchange with status 400,
`content-type: application/json` and the body `null` (valid JSON).
The claim says the `/token` response body is the vendor's parsed error
body, i.e. JSON null; the handler instead substitutes
`{error:"invalid_request"}` because of `e.body ?? ...`. -/
theorem c4_counterexample :
    (exchangeCodeForTokenError ⟨400, some "application/json", some Json.null, "null"⟩).map
        tokenErrorResponse =
      some (400, Json.obj [("error", Json.str "invalid_request")]) ∧
    Json.obj [("error", Json.str "invalid_request")] ≠ Json.null := by
  refine ⟨rfl, fun h => Json.noConfusion h⟩

/-- C4 (amended): for every `POST /token` request whose vendor exchange
or refresh fails with an `OAuthHttpError`, the HTTP response status
equals the error's status when that status is in the fixed allow-list
and is 400 otherwise, and the response body is the vendor's error body
(parsed JSON, or a raw-text-wrapped object when the vendor response was
not JSON) — except that a vendor body parsing to JSON null is replaced
by `{error:"invalid_request"}`. -/
theorem c4_token_error_passthrough (r : VendorResp) (e : OAuthHttpError)
    (h : exchangeCodeForTokenError r = some e ∨ refreshAccessTokenError r = some e) :
    ((tokenErrorResponse e).1 =
      if allowedStatuses.contains e.status then e.status else 400) ∧
    (∀ j, r.jsonBody = some j → j ≠ Json.null →
      strIncludes (r.contentType.getD "") "application/json" = true →
      (tokenErrorResponse e).2 = j) ∧
    (strIncludes (r.contentType.getD "") "application/json" = false →
      (tokenErrorResponse e).2 =
        Json.obj [("error", Json.str "server_error"),
                  ("error_description", Json.str r.textBody)]) ∧
    (r.jsonBody = some Json.null →
      strIncludes (r.contentType.getD "") "application/json" = true →
      (tokenErrorResponse e).2 = Json.obj [("error", Json.str "invalid_request")]) := by
  have he : e.status = (if r.status = 0 then 400 else r.status) ∧ e.body = vendorErrorBody r := by
    rcases h with h | h <;>
      · simp only [exchangeCodeForTokenError, refreshAccessTokenError] at h
        by_cases hok : r.ok <;> simp [hok] at h
        exact ⟨by rw [← h], by rw [← h]⟩
  have hstat : e.status ≠ 0 := by
    rcases he with ⟨h1, -⟩
    by_cases h0 : r.status = 0 <;> simp [h0] at h1 <;> omega
  refine ⟨?_, ?_, ?_, ?_⟩
  · simp only [tokenErrorResponse, if_neg hstat]
  · intro j hj hne hct
    have hb : e.body = j := by rw [he.2]; simp [vendorErrorBody, hct, hj]
    simp only [tokenErrorResponse]
    rw [hb]
    cases j with
    | null => exact absurd rfl hne
    | bool b => rfl
    | num n => rfl
    | str s => rfl
    | arr xs => rfl
    | obj fs => rfl
  · intro hct
    have hb : e.body = Json.obj [("error", Json.str "server_error"),
        ("error_description", Json.str r.textBody)] := by
      rw [he.2]; simp [vendorErrorBody, hct]
    simp only [tokenErrorResponse]
    rw [hb]
  · intro hj hct
    have hb : e.body = Json.null := by rw [he.2]; simp [vendorErrorBody, hct, hj]
    simp only [tokenErrorResponse]
    rw [hb]

/-- Witness for C4: a 429 vendor failure with a JSON error object is
passed through with its own status and body. -/
theorem c4_witness :
    (tokenErrorResponse ⟨"Token exchange failed", 429,
        Json.obj [("error", Json.str "rate_limited")]⟩).1 = 429 ∧
    (tokenErrorResponse ⟨"Token exchange failed", 429,
        Json.obj [("error", Json.str "rate_limited")]⟩).2 =
      Json.obj [("error", Json.str "rate_limited")] := by
  have h := c4_token_error_passthrough
    ⟨429, some "application/json", some (Json.obj [("error", Json.str "rate_limited")]), "{}"⟩
    ⟨"Token exchange failed", 429, Json.obj [("error", Json.str "rate_limited")]⟩
    (Or.inl rfl)
  refine ⟨?_, h.2.1 _ rfl (fun hx => Json.noConfusion hx) rfl⟩
  have h1 := h.1
  simpa using h1

/-- The `form` helper (src/api/lib/quickbooks-auth.ts lines 55–61): it
appends a key/value pair only when the value is truthy, i.e. present
and non-empty, preserving the iteration order of the entries. -/
def form (params : List (String × Option String)) : List (String × String) :=
  params.filterMap (fun kv =>
    match kv.2 with
    | some v => if v = "" then none else some (kv.1, v)
    | none => none)

/-- The form body built by `exchangeCodeForToken`
(src/api/lib/quickbooks-auth.ts lines 73–79), with the entries in the
source's object-literal order.  `code` and `redirectUri` are typed as
strings in the source but arrive from the `/token` handler's unchecked
casts, so they are carried here as the runtime optionals they are. -/
def exchangeCodeForTokenBody (code redirectUri scope codeVerifier : Option String) :
    List (String × String) :=
  form [("grant_type", some "authorization_code"), ("code", code),
        ("redirect_uri", redirectUri), ("scope", scope),
        ("code_verifier", codeVerifier)]

/-- `URLSearchParams.get`-style lookup in a form body: the value of the
first pair with the given key. -/
def lookupParam (ps : List (String × String)) (k : String) : Option String :=
  (ps.find? (fun p => p.1 == k)).map (fun p => p.2)

/-- C7 counterexample: a `code_verifier` that is present in the `/token`
request form body but equal to the empty string is dropped from the
vendor request (the `form` helper tests JavaScript truthiness), whereas
the claim says every present verifier is forwarded verbatim. -/
theorem c7_counterexample :
    lookupParam
        (exchangeCodeForTokenBody (some "auth-code") (some "https://cb") none (some ""))
        "code_verifier" = none ∧
    (some "" : Option String) ≠ none := by
  exact ⟨rfl, fun h => Option.noConfusion h⟩

/-- C7 (amended): for every `POST /token` request with
`grant_type=authorization_code`, the `code_verifier` from the request
form body is forwarded verbatim to the vendor token endpoint when
present and non-empty, and omitted when absent or empty; no local
cryptographic verification of the verifier against any code challenge
is performed — the forwarded value is exactly the caller's, for all
values of the other form fields. -/
theorem lookupParam_form_skip (k : String) (opt : Option String)
    (rest : List (String × Option String)) (key : String)
    (h : (k == key) = false) :
    lookupParam (form ((k, opt) :: rest)) key = lookupParam (form rest) key := by
  cases opt with
  | none => simp [form, List.filterMap_cons]
  | some v =>
    by_cases hv : v = "" <;>
      simp [form, List.filterMap_cons, hv, lookupParam, List.find?, h]

theorem c7_pkce_passthrough (code redirectUri scope cv : Option String) :
    lookupParam (exchangeCodeForTokenBody code redirectUri scope cv) "code_verifier" =
      (match cv with
       | some v => if v = "" then none else some v
       | none => none) := by
  simp only [exchangeCodeForTokenBody]
  rw [lookupParam_form_skip "grant_type" (some "authorization_code") _ _ (by decide),
      lookupParam_form_skip "code" code _ _ (by decide),
      lookupParam_form_skip "redirect_uri" redirectUri _ _ (by decide),
      lookupParam_form_skip "scope" scope _ _ (by decide)]
  cases cv with
  | none => rfl
  | some v =>
    by_cases hv : v = "" <;> simp [form, lookupParam, List.find?, hv]

/-- `obj[key]` lookup on a JSON object's field list: the value of the
first field with the given key, `none` when the key is absent. -/
def lookupField (fs : List (String × Json)) (k : String) : Option Json :=
  (fs.find? (fun p => p.1 == k)).map (fun p => p.2)

/-- Whether a JSON value is a string (`z.string()` leaf test). -/
def jsonIsStr : Json → Bool
  | .str _ => true
  | _ => false

/-- The leaf validators appearing in `CalendarEventSchema`
(src/api/lib/microsoft-types.ts lines 5–74).  `z.string().url()`
delegates its URL test to the zod library, so the embedding takes that
test as an explicit parameter `urlOk`. -/
inductive FieldCheck where
  | fstr
  | fstrUrl
  | fnum
  | fbool
  | farrStr
  | fstrNullish
  | fbodyObj
  | fimportance
  | fsensitivity
  | frespStatus
  | fdateTimeZone
  | fany
  | farrAny
  | fanyOpt
  | forganizer
deriving DecidableEq

/-- Validation of one present field value against its declared zod
check, returning the value as it appears in the parse output (nested
objects are themselves stripped to their declared keys) or `none` on a
mismatch. -/
def checkField (urlOk : String → Bool) : FieldCheck → Json → Option Json
  | .fstr, Json.str s => some (Json.str s)
  | .fstrUrl, Json.str s => if urlOk s then some (Json.str s) else none
  | .fnum, Json.num n => some (Json.num n)
  | .fbool, Json.bool b => some (Json.bool b)
  | .farrStr, Json.arr xs => if xs.all jsonIsStr then some (Json.arr xs) else none
  | .fstrNullish, Json.str s => some (Json.str s)
  | .fstrNullish, Json.null => some Json.null
  | .fbodyObj, Json.obj fs =>
    match lookupField fs "contentType", lookupField fs "content" with
    | some (Json.str ct), some (Json.str c) =>
      if ct = "html" ∨ ct = "text" then
        some (Json.obj [("contentType", Json.str ct), ("content", Json.str c)])
      else none
    | _, _ => none
  | .fimportance, Json.str s =>
    if ["low", "normal", "high"].contains s then some (Json.str s) else none
  | .fsensitivity, Json.str s =>
    if ["normal", "personal", "private", "confidential"].contains s then
      some (Json.str s)
    else none
  | .frespStatus, Json.obj fs =>
    match lookupField fs "response", lookupField fs "time" with
    | some (Json.str r), some (Json.str t) =>
      some (Json.obj [("response", Json.str r), ("time", Json.str t)])
    | _, _ => none
  | .fdateTimeZone, Json.obj fs =>
    match lookupField fs "dateTime", lookupField fs "timeZone" with
    | some (Json.str d), some (Json.str t) =>
      some (Json.obj [("dateTime", Json.str d), ("timeZone", Json.str t)])
    | _, _ => none
  | .fany, v => some v
  | .farrAny, Json.arr xs => some (Json.arr xs)
  | .fanyOpt, v => some v
  | .forganizer, Json.obj fs =>
    match lookupField fs "emailAddress" with
    | some v => some (Json.obj [("emailAddress", v)])
    | none => some (Json.obj [])
  | _, _ => none

/-- Whether a declared field may be absent from the payload without
failing validation: `.nullish()` leaves (`seriesMasterId`,
`onlineMeetingUrl`, `occurrenceId`), `z.any()` (optional in zod), and
`z.any().optional()`. -/
def allowsMissing : FieldCheck → Bool
  | .fstrNullish => true
  | .fany => true
  | .fanyOpt => true
  | _ => false

/-- The declared shape of `CalendarEventSchema`
(src/api/lib/microsoft-types.ts lines 5–74), field by field in
declaration order. -/
def CalendarEventSchema : List (String × FieldCheck) :=
  [("id", .fstr),
   ("createdDateTime", .fstr),
   ("lastModifiedDateTime", .fstr),
   ("categories", .farrStr),
   ("originalStartTimeZone", .fstr),
   ("originalEndTimeZone", .fstr),
   ("reminderMinutesBeforeStart", .fnum),
   ("isReminderOn", .fbool),
   ("subject", .fstr),
   ("bodyPreview", .fstr),
   ("body", .fbodyObj),
   ("importance", .fimportance),
   ("sensitivity", .fsensitivity),
   ("isAllDay", .fbool),
   ("isCancelled", .fbool),
   ("isOrganizer", .fbool),
   ("responseRequested", .fbool),
   ("seriesMasterId", .fstrNullish),
   ("showAs", .fstr),
   ("type", .fstr),
   ("webLink", .fstrUrl),
   ("onlineMeetingUrl", .fstrNullish),
   ("isOnlineMeeting", .fbool),
   ("onlineMeetingProvider", .fstr),
   ("allowNewTimeProposals", .fbool),
   ("occurrenceId", .fstrNullish),
   ("isDraft", .fbool),
   ("hideAttendees", .fbool),
   ("responseStatus", .frespStatus),
   ("start", .fdateTimeZone),
   ("end", .fdateTimeZone),
   ("location", .fany),
   ("locations", .farrAny),
   ("recurrence", .fanyOpt),
   ("attendees", .farrAny),
   ("organizer", .forganizer)]

/-- Walking the declared shape over a payload's field list, in shape
order: a required key that is absent fails, a present value that fails
its check fails, and the output contains exactly the declared keys that
were present and valid (zod `.strip()` semantics — unknown payload keys
are never copied to the output). -/
def parseFields (urlOk : String → Bool) :
    List (String × FieldCheck) → List (String × Json) →
    Except String (List (String × Json))
  | [], _ => .ok []
  | (k, chk) :: shape, fs =>
    match lookupField fs k with
    | none =>
      if allowsMissing chk then parseFields urlOk shape fs
      else .error ("Required field missing: " ++ k)
    | some v =>
      match checkField urlOk chk v with
      | none => .error ("Invalid field: " ++ k)
      | some v' =>
        match parseFields urlOk shape fs with
        | .ok rest => .ok ((k, v') :: rest)
        | .error m => .error m

/-- `CalendarEventSchema.parse` (zod `.strip()` object schema): only an
object parses, and the result is the stripped, validated object. -/
def calendarEventParse (urlOk : String → Bool) : Json → Except String Json
  | Json.obj fs => (parseFields urlOk CalendarEventSchema fs).map Json.obj
  | _ => .error "Expected object"

theorem parseFields_keys (urlOk : String → Bool)
    (shape : List (String × FieldCheck)) :
    ∀ fs gs, parseFields urlOk shape fs = .ok gs →
      ∀ p ∈ gs, p.1 ∈ shape.map Prod.fst := by
  induction shape with
  | nil =>
    intro fs gs h p hp
    simp [parseFields] at h
    subst h
    cases hp
  | cons hd tl ih =>
    intro fs gs h p hp
    obtain ⟨k, chk⟩ := hd
    cases hlook : lookupField fs k with
    | none =>
      by_cases hm : allowsMissing chk
      · simp [parseFields, hlook, hm] at h
        exact List.mem_cons_of_mem _ (ih fs gs h p hp)
      · simp [parseFields, hlook, hm] at h
    | some v =>
      cases hchk : checkField urlOk chk v with
      | none => simp [parseFields, hlook, hchk] at h
      | some v' =>
        cases hrest : parseFields urlOk tl fs with
        | error m => simp [parseFields, hlook, hchk, hrest] at h
        | ok rest =>
          simp [parseFields, hlook, hchk, hrest] at h
          subst h
          rcases List.mem_cons.mp hp with hpe | hpm
          · cases hpe
            exact List.mem_cons_self _ _
          · exact List.mem_cons_of_mem _ (ih fs rest hrest p hpm)

theorem parseFields_missing_required (urlOk : String → Bool)
    (shape : List (String × FieldCheck)) :
    ∀ fs k chk, (k, chk) ∈ shape → allowsMissing chk = false →
      lookupField fs k = none →
      ∃ msg, parseFields urlOk shape fs = .error msg := by
  induction shape with
  | nil => intro fs k chk hmem; cases hmem
  | cons hd tl ih =>
    intro fs k chk hmem hreq hmiss
    obtain ⟨k', chk'⟩ := hd
    rcases List.mem_cons.mp hmem with heq | htl
    · cases heq
      exact ⟨"Required field missing: " ++ k,
        by simp [parseFields, hmiss, hreq]⟩
    · cases hlook : lookupField fs k' with
      | none =>
        by_cases hm : allowsMissing chk'
        · obtain ⟨msg, hmsg⟩ := ih fs k chk htl hreq hmiss
          exact ⟨msg, by simp [parseFields, hlook, hm, hmsg]⟩
        · exact ⟨"Required field missing: " ++ k',
            by simp [parseFields, hlook, hm]⟩
      | some v =>
        cases hchk : checkField urlOk chk' v with
        | none =>
          exact ⟨"Invalid field: " ++ k', by simp [parseFields, hlook, hchk]⟩
        | some v' =>
          obtain ⟨msg, hmsg⟩ := ih fs k chk htl hreq hmiss
          exact ⟨msg, by simp [parseFields, hlook, hchk, hmsg]⟩

/-- C6: for every raw payload parsed by `CalendarEventSchema`, any
top-level field not declared in the schema is stripped (an unknown key
never appears in the parse output), and a payload missing any required
declared field fails validation with an error. -/
theorem c6_schema_strict (urlOk : String → Bool) :
    (∀ fs out, calendarEventParse urlOk (Json.obj fs) = .ok out →
      ∃ gs, out = Json.obj gs ∧ ∀ p ∈ gs, p.1 ∈ CalendarEventSchema.map Prod.fst) ∧
    (∀ fs k chk, (k, chk) ∈ CalendarEventSchema → allowsMissing chk = false →
      lookupField fs k = none →
      ∃ msg, calendarEventParse urlOk (Json.obj fs) = .error msg) := by
  constructor
  · intro fs out h
    simp only [calendarEventParse] at h
    cases hp : parseFields urlOk CalendarEventSchema fs with
    | error m => rw [hp] at h; cases h
    | ok gs =>
      rw [hp] at h
      simp only [Except.map] at h
      cases h
      exact ⟨gs, rfl, parseFields_keys urlOk CalendarEventSchema fs gs hp⟩
  · intro fs k chk hmem hreq hmiss
    obtain ⟨msg, hmsg⟩ :=
      parseFields_missing_required urlOk CalendarEventSchema fs k chk hmem hreq hmiss
    exact ⟨msg, by simp [calendarEventParse, hmsg, Except.map]⟩

/-- A fully valid calendar-event payload, fields in schema declaration
order with canonically shaped nested objects. -/
def evFieldsCore : List (String × Json) :=
  [("id", Json.str "evt-1"),
   ("createdDateTime", Json.str "2025-01-01T00:00:00Z"),
   ("lastModifiedDateTime", Json.str "2025-01-02T00:00:00Z"),
   ("categories", Json.arr [Json.str "work"]),
   ("originalStartTimeZone", Json.str "UTC"),
   ("originalEndTimeZone", Json.str "UTC"),
   ("reminderMinutesBeforeStart", Json.num 15),
   ("isReminderOn", Json.bool true),
   ("subject", Json.str "standup"),
   ("bodyPreview", Json.str "daily"),
   ("body", Json.obj [("contentType", Json.str "text"), ("content", Json.str "daily")]),
   ("importance", Json.str "normal"),
   ("sensitivity", Json.str "normal"),
   ("isAllDay", Json.bool false),
   ("isCancelled", Json.bool false),
   ("isOrganizer", Json.bool true),
   ("responseRequested", Json.bool true),
   ("seriesMasterId", Json.null),
   ("showAs", Json.str "busy"),
   ("type", Json.str "singleInstance"),
   ("webLink", Json.str "https://outlook.example/evt-1"),
   ("onlineMeetingUrl", Json.null),
   ("isOnlineMeeting", Json.bool false),
   ("onlineMeetingProvider", Json.str "unknown"),
   ("allowNewTimeProposals", Json.bool true),
   ("occurrenceId", Json.null),
   ("isDraft", Json.bool false),
   ("hideAttendees", Json.bool false),
   ("responseStatus", Json.obj [("response", Json.str "organizer"),
                                ("time", Json.str "2025-01-01T00:00:00Z")]),
   ("start", Json.obj [("dateTime", Json.str "2025-01-03T09:00:00"),
                       ("timeZone", Json.str "UTC")]),
   ("end", Json.obj [("dateTime", Json.str "2025-01-03T09:30:00"),
                     ("timeZone", Json.str "UTC")]),
   ("location", Json.obj [("displayName", Json.str "Room 1")]),
   ("locations", Json.arr []),
   ("recurrence", Json.null),
   ("attendees", Json.arr []),
   ("organizer", Json.obj [("emailAddress",
      Json.obj [("name", Json.str "A"), ("address", Json.str "a@example.com")])])]

/-- The valid payload extended with one undeclared top-level key. -/
def evPayload : Json := Json.obj (evFieldsCore ++ [("sneaky", Json.str "x")])

/-- Witness for C6: the payload with the undeclared key `"sneaky"`
parses with only declared keys in the output, and the empty payload
fails for the required key `"id"`. -/
theorem c6_witness :
    (∃ gs, Json.obj evFieldsCore = Json.obj gs ∧
      ∀ p ∈ gs, p.1 ∈ CalendarEventSchema.map Prod.fst) ∧
    (∃ msg, calendarEventParse (fun _ => true) (Json.obj []) = .error msg) :=
  ⟨(c6_schema_strict (fun _ => true)).1 (evFieldsCore ++ [("sneaky", Json.str "x")])
      (Json.obj evFieldsCore) (by rfl),
   (c6_schema_strict (fun _ => true)).2 [] "id" FieldCheck.fstr
      (List.Mem.head _) rfl rfl⟩

/-- One page of a Microsoft Graph OData response: the `value` row array
and the optional `@odata.nextLink` cursor. -/
structure ODataPage where
  value : List Json
  nextLink : Option String

/-- `page.value.map((raw) => CalendarEventSchema.parse(raw))` as run by
the pagination loop: validates the rows of one page in response order,
propagating the first thrown validation error. -/
def parsePageRows (urlOk : String → Bool) : List Json → Except String (List Json)
  | [] => .ok []
  | r :: rs =>
    match calendarEventParse urlOk r with
    | .error m => .error m
    | .ok e =>
      match parsePageRows urlOk rs with
      | .error m => .error m
      | .ok es => .ok (e :: es)

/-- The pagination loop of `MicrosoftService.getUserCalendarEvents`
(src/unnamed/part_000 lines 589–628): starting from the initial URL it
fetches a page, validates its rows and appends them to the accumulator
in response order, and continues exactly while the page advertises an
`@odata.nextLink`.  The input list holds the pages served by the
successive GETs; the result pairs the accumulated events with the
number of GETs issued. -/
def getUserCalendarEvents (urlOk : String → Bool) :
    List ODataPage → Except String (List Json × Nat)
  | [] => .ok ([], 0)
  | p :: rest =>
    match parsePageRows urlOk p.value with
    | .error m => .error m
    | .ok evs =>
      match p.nextLink with
      | none => .ok (evs, 1)
      | some _ =>
        match getUserCalendarEvents urlOk rest with
        | .error m => .error m
        | .ok (more, n) => .ok (evs ++ more, n + 1)

/-- The page-chain hypothesis of C5: each page but the last carries a
next-page cursor, and the last page does not. -/
def pageChain : List ODataPage → Prop
  | [] => False
  | [p] => p.nextLink = none
  | p :: q :: rest => (∃ u, p.nextLink = some u) ∧ pageChain (q :: rest)

/-- The validated value of a row (specified on rows that validate). -/
def parsedEvent (urlOk : String → Bool) (r : Json) : Json :=
  match calendarEventParse urlOk r with
  | .ok e => e
  | .error _ => Json.null

theorem parsePageRows_ok (urlOk : String → Bool) (rows : List Json)
    (h : ∀ r ∈ rows, ∃ e, calendarEventParse urlOk r = .ok e) :
    parsePageRows urlOk rows = .ok (rows.map (parsedEvent urlOk)) := by
  induction rows with
  | nil => rfl
  | cons r rs ih =>
    obtain ⟨e, he⟩ := h r (List.mem_cons_self _ _)
    have hrs := ih (fun x hx => h x (List.mem_cons_of_mem _ hx))
    simp [parsePageRows, he, hrs, parsedEvent]

theorem getUserCalendarEvents_cons_some (urlOk : String → Bool) (p : ODataPage)
    (rest : List ODataPage) (evs : List Json) (u : String)
    (hrows : parsePageRows urlOk p.value = .ok evs) (hu : p.nextLink = some u)
    (more : List Json) (n : Nat)
    (hrest : getUserCalendarEvents urlOk rest = .ok (more, n)) :
    getUserCalendarEvents urlOk (p :: rest) = .ok (evs ++ more, n + 1) := by
  simp [getUserCalendarEvents, hrows, hu, hrest]

/-- C5: for every finite chain of upstream pages in which each page but
the last carries an `@odata.nextLink` cursor and all rows validate,
`MicrosoftService.getUserCalendarEvents` issues exactly one GET per
page and returns the concatenation of all pages' validated rows in page
order, rows within a page kept in response order (plain concatenation,
hence no deduplication). -/
theorem c5_pagination (urlOk : String → Bool) (pages : List ODataPage)
    (hchain : pageChain pages)
    (hvalid : ∀ p ∈ pages, ∀ r ∈ p.value, ∃ e, calendarEventParse urlOk r = .ok e) :
    getUserCalendarEvents urlOk pages =
      .ok ((pages.map (fun p => p.value.map (parsedEvent urlOk))).flatten,
        pages.length) := by
  induction pages with
  | nil => exact hchain.elim
  | cons p rest ih =>
    have hrows := parsePageRows_ok urlOk p.value (hvalid p (List.mem_cons_self _ _))
    cases rest with
    | nil =>
      have hnone : p.nextLink = none := hchain
      simp [getUserCalendarEvents, hrows, hnone]
    | cons q rs =>
      obtain ⟨⟨u, hu⟩, hrest⟩ := hchain
      have ihr := ih hrest (fun x hx r hr => hvalid x (List.mem_cons_of_mem _ hx) r hr)
      rw [getUserCalendarEvents_cons_some urlOk p (q :: rs) _ u hrows hu _ _ ihr]
      simp

/-- Witness for C5: three concrete pages, the first two advertising a
cursor, are fetched with exactly 3 GETs and concatenated in order. -/
theorem c5_witness :
    getUserCalendarEvents (fun _ => true)
        [⟨[evPayload], some "next-2"⟩, ⟨[evPayload, evPayload], some "next-3"⟩,
         ⟨[evPayload], none⟩] =
      .ok (([⟨[evPayload], some "next-2"⟩, ⟨[evPayload, evPayload], some "next-3"⟩,
          (⟨[evPayload], none⟩ : ODataPage)].map
            (fun p => p.value.map (parsedEvent (fun _ => true)))).flatten, 3) :=
  c5_pagination (fun _ => true) _
    ⟨⟨"next-2", rfl⟩, ⟨"next-3", rfl⟩, rfl⟩
    (by
      intro p hp r hr
      fin_cases hp <;> fin_cases hr <;> exact ⟨Json.obj evFieldsCore, rfl⟩)

/-- `{ dateTime, timeZone }` object in an event payload. -/
structure DateTimeZonePayload where
  dateTime : String
  timeZone : String
deriving DecidableEq

/-- `{ contentType, content }` body object in an event payload. -/
structure ItemBodyPayload where
  contentType : String
  content : String
deriving DecidableEq

/-- `{ displayName }` location object in an event payload. -/
structure LocationPayload where
  displayName : String
deriving DecidableEq

/-- `{ emailAddress: { address } }` attendee object in an event payload. -/
structure AttendeePayload where
  address : String
deriving DecidableEq

/-- The `eventData` object handed to `JSON.stringify` by
`createCalendarEvent` / `updateCalendarEvent`; `JSON.stringify` drops
`undefined` members, so a `none` field is omitted from the request. -/
structure EventDataPayload where
  subject : Option String
  start : Option DateTimeZonePayload
  «end» : Option DateTimeZonePayload
  reminderMinutesBeforeStart : Option Int
  body : Option ItemBodyPayload
  location : Option LocationPayload
  isAllDay : Option Bool
  categories : Option (List String)
  attendees : Option (List AttendeePayload)
deriving DecidableEq

/-- The `eventData` of `MicrosoftService.createCalendarEvent`
(src/unnamed/part_000 lines 630–653): `subject` is written
unconditionally; `body` and `location` are wrapped objects guarded by
JavaScript truthiness (absent or empty string means omitted);
`isAllDay` defaults to `false` via `??`. -/
def createCalendarEvent (subject startDate endDate : String)
    (reminderMinutesBeforeStart : Int) (body location : Option String)
    (isAllDay : Option Bool) (categories : Option (List String))
    (attendees : Option (List String)) : EventDataPayload :=
  { subject := some subject,
    start := some ⟨startDate, "UTC"⟩,
    «end» := some ⟨endDate, "UTC"⟩,
    reminderMinutesBeforeStart := some reminderMinutesBeforeStart,
    body :=
      match body with
      | some b => if b = "" then none else some ⟨"text", b⟩
      | none => none,
    location :=
      match location with
      | some l => if l = "" then none else some ⟨l⟩
      | none => none,
    isAllDay := some (isAllDay.getD false),
    categories := categories,
    attendees := attendees.map (fun as => as.map (fun e => ⟨e⟩)) }

/-- The `eventData` of `MicrosoftService.updateCalendarEvent`
(src/unnamed/part_000 lines 688–727): every field is optional.
`subject`, `reminderMinutesBeforeStart`, `isAllDay`, `categories` and
`attendees` pass through `?? undefined` / explicit `!== undefined`
tests (so an empty-string subject is kept verbatim), while `start`,
`end`, `body` and `location` are guarded by truthiness (an empty
string means omitted). -/
def updateCalendarEvent (subject startDate endDate : Option String)
    (reminderMinutesBeforeStart : Option Int) (body location : Option String)
    (isAllDay : Option Bool) (categories : Option (List String))
    (attendees : Option (List String)) : EventDataPayload :=
  { subject := subject,
    start :=
      match startDate with
      | some s => if s = "" then none else some ⟨s, "UTC"⟩
      | none => none,
    «end» :=
      match endDate with
      | some e => if e = "" then none else some ⟨e, "UTC"⟩
      | none => none,
    reminderMinutesBeforeStart := reminderMinutesBeforeStart,
    body :=
      match body with
      | some b => if b = "" then none else some ⟨"text", b⟩
      | none => none,
    location :=
      match location with
      | some l => if l = "" then none else some ⟨l⟩
      | none => none,
    isAllDay := isAllDay,
    categories := categories,
    attendees := attendees.map (fun as => as.map (fun e => ⟨e⟩)) }

/-- C8 counterexample: with `subject` equal to the empty string the
constructed payloads still contain a `subject` member (the empty
string): `createCalendarEvent` writes it unconditionally, and
`updateCalendarEvent` passes it through `?? undefined`, which keeps an
empty string.  The claim's "the payload omits that field entirely, so
a caller cannot set any of these fields to the empty string" is false
for `subject`. -/
theorem c8_counterexample :
    (createCalendarEvent "" "2025-01-03T09:00:00" "2025-01-03T09:30:00" 15
        none none none none none).subject = some "" ∧
    (updateCalendarEvent (some "") none none none none none none none
        none).subject = some "" :=
  ⟨rfl, rfl⟩

/-- C8 (amended): an empty-string `body` or `location` argument is
omitted entirely from the payload constructed by both
`createCalendarEvent` and `updateCalendarEvent` (identical to the field
not being provided), but an empty-string `subject` is included
verbatim — of the three fields named by the claim, only `subject` can
be set to the empty string by a caller. -/
theorem c8_empty_string_fields (subject startDate endDate : String)
    (rem : Int) (b l : Option String) (ad : Option Bool)
    (cats : Option (List String)) (atts : Option (List String))
    (us ustart uend : Option String) (urem : Option Int)
    (hb : b = some "") (hl : l = some "") :
    (createCalendarEvent subject startDate endDate rem b l ad cats atts).body = none ∧
    (createCalendarEvent subject startDate endDate rem b l ad cats atts).location = none ∧
    (createCalendarEvent subject startDate endDate rem b l ad cats atts).subject =
      some subject ∧
    (updateCalendarEvent us ustart uend urem b l ad cats atts).body = none ∧
    (updateCalendarEvent us ustart uend urem b l ad cats atts).location = none ∧
    (updateCalendarEvent us ustart uend urem b l ad cats atts).subject = us := by
  subst hb
  subst hl
  exact ⟨rfl, rfl, rfl, rfl, rfl, rfl⟩

/-- Witness for C8 at concrete arguments. -/
theorem c8_witness :
    (createCalendarEvent "Sync" "d1" "d2" 15 (some "") (some "")
        none none none).body = none ∧
    (createCalendarEvent "Sync" "d1" "d2" 15 (some "") (some "")
        none none none).location = none ∧
    (createCalendarEvent "Sync" "d1" "d2" 15 (some "") (some "")
        none none none).subject = some "Sync" ∧
    (updateCalendarEvent (some "Edited") none none none (some "") (some "")
        none none none).body = none ∧
    (updateCalendarEvent (some "Edited") none none none (some "") (some "")
        none none none).location = none ∧
    (updateCalendarEvent (some "Edited") none none none (some "") (some "")
        none none none).subject = some "Edited" :=
  c8_empty_string_fields "Sync" "d1" "d2" 15 (some "") (some "") none none none
    (some "Edited") none none none rfl rfl

/-- Outcome of a bearer-token middleware: an HTTP 401 rejection or the
auth-context props (`accessToken`, `refreshToken`) handed to the MCP
agent before `next()` runs. -/
inductive MiddlewareOutcome where
  | unauthorized (status : Nat) (message : String)
  | authorized (accessToken refreshToken : String)
deriving DecidableEq

/-- JavaScript `s.startsWith(p)`: `p` is a prefix of `s`. -/
def strStartsWith (s p : String) : Bool := p.toList.isPrefixOf s.toList

/-- JavaScript `s.slice(n)` for nonnegative `n`: drop the first `n`
characters. -/
def strSlice (s : String) (n : Nat) : String := ⟨s.toList.drop n⟩

/-- `quickBooksBearerTokenAuthMiddleware`
(src/api/lib/quickbooks-auth.ts lines 6–22): reads the `Authorization`
header (defaulting to `""`), throws a 401 `HTTPException` unless it
starts with `"Bearer "`, and otherwise forwards `auth.slice(7)` as the
access token together with the `X-QuickBooks-Refresh-Token` header
(defaulting to `""`). -/
def quickBooksBearerTokenAuthMiddleware (header : String → Option String) :
    MiddlewareOutcome :=
  let auth := (header "Authorization").getD ""
  if !strStartsWith auth "Bearer " then
    .unauthorized 401 "Missing or invalid access token"
  else
    .authorized (strSlice auth 7) ((header "X-QuickBooks-Refresh-Token").getD "")

/-- `microsoftBearerTokenAuthMiddleware` (src/unnamed/part_002 lines
118–135): identical, reading `X-Microsoft-Refresh-Token`. -/
def microsoftBearerTokenAuthMiddleware (header : String → Option String) :
    MiddlewareOutcome :=
  let auth := (header "Authorization").getD ""
  if !strStartsWith auth "Bearer " then
    .unauthorized 401 "Missing or invalid access token"
  else
    .authorized (strSlice auth 7) ((header "X-Microsoft-Refresh-Token").getD "")

/-- C9: each bearer middleware raises 401 if and only if the
`Authorization` header is absent or does not start with `"Bearer "`;
otherwise it forwards as access token exactly the substring after the
7-character prefix — including the empty string when the header is
exactly `"Bearer "` — together with the refresh header's value, which
defaults to the empty string when that header is absent. -/
theorem c9_bearer_middleware (header : String → Option String) :
    ((∃ m, quickBooksBearerTokenAuthMiddleware header = .unauthorized 401 m) ↔
      header "Authorization" = none ∨
        ∃ s, header "Authorization" = some s ∧ strStartsWith s "Bearer " = false) ∧
    ((∃ m, microsoftBearerTokenAuthMiddleware header = .unauthorized 401 m) ↔
      header "Authorization" = none ∨
        ∃ s, header "Authorization" = some s ∧ strStartsWith s "Bearer " = false) ∧
    (∀ s, header "Authorization" = some s → strStartsWith s "Bearer " = true →
      quickBooksBearerTokenAuthMiddleware header =
        .authorized (strSlice s 7) ((header "X-QuickBooks-Refresh-Token").getD "") ∧
      microsoftBearerTokenAuthMiddleware header =
        .authorized (strSlice s 7) ((header "X-Microsoft-Refresh-Token").getD "")) := by
  have hempty : strStartsWith "" "Bearer " = false := by decide
  cases hauth : header "Authorization" with
  | none =>
    have hq : quickBooksBearerTokenAuthMiddleware header =
        .unauthorized 401 "Missing or invalid access token" := by
      simp [quickBooksBearerTokenAuthMiddleware, hauth, hempty]
    have hm : microsoftBearerTokenAuthMiddleware header =
        .unauthorized 401 "Missing or invalid access token" := by
      simp [microsoftBearerTokenAuthMiddleware, hauth, hempty]
    refine ⟨⟨fun _ => Or.inl rfl, fun _ => ⟨_, hq⟩⟩,
            ⟨fun _ => Or.inl rfl, fun _ => ⟨_, hm⟩⟩, ?_⟩
    intro s hs
    cases hs
  | some s =>
    by_cases hsw : strStartsWith s "Bearer "
    · have hq : quickBooksBearerTokenAuthMiddleware header =
          .authorized (strSlice s 7) ((header "X-QuickBooks-Refresh-Token").getD "") := by
        simp [quickBooksBearerTokenAuthMiddleware, hauth, hsw]
      have hm : microsoftBearerTokenAuthMiddleware header =
          .authorized (strSlice s 7) ((header "X-Microsoft-Refresh-Token").getD "") := by
        simp [microsoftBearerTokenAuthMiddleware, hauth, hsw]
      refine ⟨?_, ?_, ?_⟩
      · constructor
        · rintro ⟨m, hm'⟩
          rw [hq] at hm'
          cases hm'
        · rintro (h | ⟨t, ht, hsw'⟩)
          · cases h
          · cases ht
            exact absurd hsw (by simp [hsw'])
      · constructor
        · rintro ⟨m, hm'⟩
          rw [hm] at hm'
          cases hm'
        · rintro (h | ⟨t, ht, hsw'⟩)
          · cases h
          · cases ht
            exact absurd hsw (by simp [hsw'])
      · intro t ht _
        cases ht
        exact ⟨hq, hm⟩
    · have hswf : strStartsWith s "Bearer " = false := by simpa using hsw
      have hq : quickBooksBearerTokenAuthMiddleware header =
          .unauthorized 401 "Missing or invalid access token" := by
        simp [quickBooksBearerTokenAuthMiddleware, hauth, hswf]
      have hm : microsoftBearerTokenAuthMiddleware header =
          .unauthorized 401 "Missing or invalid access token" := by
        simp [microsoftBearerTokenAuthMiddleware, hauth, hswf]
      refine ⟨⟨fun _ => Or.inr ⟨s, rfl, hswf⟩, fun _ => ⟨_, hq⟩⟩,
              ⟨fun _ => Or.inr ⟨s, rfl, hswf⟩, fun _ => ⟨_, hm⟩⟩, ?_⟩
      intro t ht hsw'
      cases ht
      exact absurd hsw' hsw

/-- Witness for C9: the header `Authorization: Bearer ` (empty token)
is accepted and forwards the empty access token, with the refresh
header absent. -/
theorem c9_witness :
    quickBooksBearerTokenAuthMiddleware
        (fun k => if k = "Authorization" then some "Bearer " else none) =
      MiddlewareOutcome.authorized "" "" ∧
    microsoftBearerTokenAuthMiddleware
        (fun k => if k = "Authorization" then some "Bearer " else none) =
      MiddlewareOutcome.authorized "" "" :=
  (c9_bearer_middleware
    (fun k => if k = "Authorization" then some "Bearer " else none)).2.2
    "Bearer " rfl (by decide)

/-- The `QuickBooksTable` union (src/api/lib/quickbooks-types.ts lines
5–11). -/
inductive QuickBooksTable where
  | Customer
  | Invoice
  | Item
  | Payment
  | Purchase
  | Vendor
deriving DecidableEq

/-- The table name as interpolated into the query string. -/
def tableName : QuickBooksTable → String
  | .Customer => "Customer"
  | .Invoice => "Invoice"
  | .Item => "Item"
  | .Payment => "Payment"
  | .Purchase => "Purchase"
  | .Vendor => "Vendor"

/-- `TABLE_DEFAULT_SORT` (src/api/lib/quickbooks-types.ts lines 13–20). -/
def TABLE_DEFAULT_SORT : QuickBooksTable → String
  | .Customer => "Name ASC"
  | .Invoice => "DueDate DESC"
  | .Item => "Name ASC"
  | .Payment => "Id DESC"
  | .Purchase => "Id DESC"
  | .Vendor => "Name ASC"

/-- The query string built by `QuickBooksService.getQueryData`
(src/api/QuickBooksService.ts lines 171–185): the template literal
`SELECT * FROM ${table} ORDERBY ${sort} STARTPOSITION ${offset}
MAXRESULTS ${maxResults}`. -/
def getQueryDataQuery (table : QuickBooksTable) (offset maxResults : Nat) : String :=
  "SELECT * FROM " ++ tableName table ++ " ORDERBY " ++ TABLE_DEFAULT_SORT table ++
    " STARTPOSITION " ++ toString offset ++ " MAXRESULTS " ++ toString maxResults

/-- `QuickBooksService.getInvoices(page, pageSize)`
(src/api/QuickBooksService.ts lines 193–203) passes `page` as the
`offset` argument and `pageSize` as `maxResults`. -/
def getInvoicesQuery (page pageSize : Nat) : String :=
  getQueryDataQuery QuickBooksTable.Invoice page pageSize

/-- `QuickBooksService.getCustomers(page, pageSize)`
(src/api/QuickBooksService.ts lines 205–215), likewise. -/
def getCustomersQuery (page pageSize : Nat) : String :=
  getQueryDataQuery QuickBooksTable.Customer page pageSize

/-- The window of row positions selected by a query with the given
`STARTPOSITION` and `MAXRESULTS`. -/
def queryRowWindow (offset maxResults : Nat) : Finset Nat :=
  Finset.Ico offset (offset + maxResults)

/-- C10: `getInvoices(page, pageSize)` and `getCustomers(page,
pageSize)` issue queries with `STARTPOSITION` equal to the `page`
argument itself (not `page * pageSize`) and `MAXRESULTS` equal to
`pageSize`, so `page` is a row offset: for any `pageSize` greater than
1, the row windows of consecutive page values overlap. -/
theorem c10_page_is_row_offset (page pageSize : Nat) (h : 1 < pageSize) :
    getInvoicesQuery page pageSize =
      "SELECT * FROM Invoice ORDERBY DueDate DESC STARTPOSITION " ++
        toString page ++ " MAXRESULTS " ++ toString pageSize ∧
    getCustomersQuery page pageSize =
      "SELECT * FROM Customer ORDERBY Name ASC STARTPOSITION " ++
        toString page ++ " MAXRESULTS " ++ toString pageSize ∧
    page + 1 ∈ queryRowWindow page pageSize ∩ queryRowWindow (page + 1) pageSize := by
  refine ⟨rfl, rfl, ?_⟩
  simp only [queryRowWindow, Finset.mem_inter, Finset.mem_Ico]
  omega

/-- Witness for C10 at `page = 0`, `pageSize = 2`: the two successive
"pages" select overlapping row windows. -/
theorem c10_witness :
    getInvoicesQuery 0 2 =
      "SELECT * FROM Invoice ORDERBY DueDate DESC STARTPOSITION 0 MAXRESULTS 2" ∧
    getCustomersQuery 0 2 =
      "SELECT * FROM Customer ORDERBY Name ASC STARTPOSITION 0 MAXRESULTS 2" ∧
    0 + 1 ∈ queryRowWindow 0 2 ∩ queryRowWindow (0 + 1) 2 :=
  c10_page_is_row_offset 0 2 (by decide)
